import Mathlib

set_option maxRecDepth 100000

/-!
Verification of the PL300 quiz application progress store and results screen.

The storage layer (`progressService.js`) is embedded from the code excerpts
quoted verbatim in the repository analysis document
(`src/unnamed/part_000`): `generateDataHash`, `saveProgress`, `performSave`
and `ensureDB`.  The results screen (`src/src/components/ResultsScreen.js`)
is embedded directly.  Asynchronous JavaScript is modelled by explicit state
passing: one synchronous run-to-the-first-await prefix is one atomic step,
which matches the single-threaded cooperative scheduling of the platform.
-/

/-- Business-relevant progress fields of a snapshot, as the storage layer
reads them (`data?.progress?...`): numeric counters, the answered-question
list, the achievement list, the mission map and the question-tracking map. -/
structure ProgressFields where
  totalPoints : Nat
  quizzesTaken : Nat
  answeredQuestions : List Nat
  achievements : List String
  missions : List (String × String)
  questionTracking : List (Nat × Nat)
deriving Repr, DecidableEq

/-- Modelled from the spec: the body of `simpleHash` is elided in the source
excerpt (`// ...` after the serialization).  Modelled as the rolling
31-multiplier string hash exhibited elsewhere in the same analysis document
(`hash = ((hash << 5) - hash) + charCode`), truncated to 32 bits. -/
def simpleHash (s : String) : Nat :=
  s.toList.foldl (fun h c => (h * 31 + c.toNat) % 4294967296) 0

/-- Serialization built by `generateDataHash` (part_000 lines 102-110):
`JSON.stringify` of an object holding `totalPoints`, `quizzesTaken`, the
LENGTH of `answeredQuestions`, and `timestamp: Math.floor(Date.now() / 1000)`.
Achievements, missions and question tracking are not serialized. -/
def dataHashString (data : ProgressFields) (nowMs : Nat) : String :=
  "\x7b\x22totalPoints\x22:" ++ toString data.totalPoints ++
  ",\x22quizzesTaken\x22:" ++ toString data.quizzesTaken ++
  ",\x22answeredQuestions\x22:" ++ toString data.answeredQuestions.length ++
  ",\x22timestamp\x22:" ++ toString (nowMs / 1000) ++ "\x7d"

/-- The dedup fingerprint `generateDataHash` of `progressService.js`, taking
the wall clock (`Date.now()` in milliseconds) as an explicit argument. -/
def generateDataHash (data : ProgressFields) (nowMs : Nat) : Nat :=
  simpleHash (dataHashString data nowMs)

/-- A sample snapshot used to evaluate the hash at concrete instants. -/
def sampleProgress : ProgressFields :=
  { totalPoints := 100
    quizzesTaken := 1
    answeredQuestions := [7, 12, 31]
    achievements := ["first_quiz"]
    missions := [("m1", "active")]
    questionTracking := [(7, 1)] }

/-- Same snapshot except for the achievement set. -/
def sampleProgressB : ProgressFields :=
  { sampleProgress with achievements := ["first_quiz", "streak_3"] }

/-- Same snapshot except for missions and question tracking. -/
def sampleProgressC : ProgressFields :=
  { sampleProgress with
      missions := [("m1", "active"), ("m2", "completed")]
      questionTracking := [(7, 1), (12, 2)] }

/-- Modelled from the spec: the numeric value of `this.MIN_SAVE_INTERVAL` is
not included in the source excerpt; the spec only requires a positive
throttle window, so 2000 ms is used.  Every theorem below that depends on it
only needs the window to be positive. -/
def MIN_SAVE_INTERVAL : Nat := 2000

/-- Result of running the synchronous prefix of `saveProgress` (part_000
lines 36-52) up to the point where control either returns to the caller or
enters `performSave` and suspends at its first `await`. -/
inductive SaveOutcome where
  | skipped
  | queued
  | started
deriving Repr, DecidableEq

/-- Mutable service state of `ProgressService` touched by `saveProgress`,
plus the in-flight instrumentation counter the spec asks for (a counter
asserting at most one `performSave` body is executing at any instant). -/
structure SvcState where
  lastSaveHash : Option Nat
  lastSaveTime : Nat
  inFlight : Nat
  maxInFlight : Nat
  saveQueue : List Nat
  backendWrites : Nat
deriving Repr, DecidableEq

/-- Initial service state: nothing saved yet, nothing in flight. -/
def SvcState.init : SvcState :=
  { lastSaveHash := none, lastSaveTime := 0, inFlight := 0,
    maxInFlight := 0, saveQueue := [], backendWrites := 0 }

/-- Synchronous prefix of `saveProgress(progressData)` run at instant
`nowMs` (part_000 lines 36-52): compute the dedup hash; if it equals
`this.lastSaveHash` return `\x7bsuccess: true, skipped: true\x7d`; else if
the throttle window since `lastSaveTime` has not elapsed, push the request
onto `saveQueue` and return a pending promise; else enter `performSave`,
which suspends awaiting backend I/O (the in-flight counter rises here).
This whole prefix contains no `await`, so on the single-threaded platform it
runs atomically — the race arises between this step and a later completion. -/
def saveProgressEnter (st : SvcState) (data : ProgressFields) (nowMs : Nat) :
    SvcState × SaveOutcome :=
  let h := generateDataHash data nowMs
  if st.lastSaveHash = some h then
    (st, SaveOutcome.skipped)
  else if nowMs - st.lastSaveTime < MIN_SAVE_INTERVAL then
    ({ st with saveQueue := st.saveQueue ++ [h] }, SaveOutcome.queued)
  else
    let inf := st.inFlight + 1
    ({ st with inFlight := inf, maxInFlight := max st.maxInFlight inf },
      SaveOutcome.started)

/-- Completion of a suspended `performSave` for a request whose dedup hash
was `h`, finishing its backend write at instant `nowMs`: the write counts,
`lastSaveHash` and `lastSaveTime` are updated, the body leaves flight. -/
def performSaveComplete (st : SvcState) (h : Nat) (nowMs : Nat) : SvcState :=
  { st with inFlight := st.inFlight - 1,
            lastSaveHash := some h,
            lastSaveTime := nowMs,
            backendWrites := st.backendWrites + 1 }

/-- Interleaving exhibiting the race (the analysis document marks it
critical): caller A enters `saveProgress` at t = 3000 ms and suspends inside
`performSave`; before A completes, caller B enters at t = 6000 ms.  B passes
the dedup check (`lastSaveHash` is still unset) and the throttle check
(`lastSaveTime` is still 0), so B also enters `performSave`. -/
def raceTrace : SvcState :=
  let stA := (saveProgressEnter SvcState.init sampleProgress 3000).1
  (saveProgressEnter stA sampleProgressB 6000).1

/-- Two sequential saves of one and the same snapshot: the first at `t1`
runs to completion (enter, then complete its backend write at `t1`), the
second enters at `t2`.  Returns the second call's outcome and final state. -/
def saveSameTwice (data : ProgressFields) (t1 t2 : Nat) : SvcState × SaveOutcome :=
  let first := saveProgressEnter SvcState.init data t1
  let committed := performSaveComplete first.1 (generateDataHash data t1) t1
  saveProgressEnter committed data t2

/-- Modelled from the spec: the body of `generateChecksum` is not included
in the source excerpt.  Per the spec it is a full-content hash over the
entire payload (achievements, missions and tracking included, unlike the
dedup fingerprint); modelled with the same rolling string hash over a full
serialization. -/
def generateChecksum (data : ProgressFields) : Nat :=
  simpleHash (toString data.totalPoints ++ "|" ++ toString data.quizzesTaken ++
    "|" ++ toString data.answeredQuestions ++ "|" ++ toString data.achievements ++
    "|" ++ toString data.missions ++ "|" ++ toString data.questionTracking)

/-- The `PROGRESS_HEAD` record written to the fast backend: the checksum of
the current snapshot and the id of the full snapshot record stored in the
durable backend (`MissionSnapshots`). -/
structure HeadRecord where
  checksum : Nat
  snapshotId : Nat
deriving Repr, DecidableEq

/-- Joint persisted state of the two backends plus the observable outputs
relevant to corruption handling: the quarantine key
(`cxcc_corrupted_backup`) and any emitted signals. -/
structure StoreState where
  head : Option HeadRecord
  snapshots : List (Nat × ProgressFields)
  quarantine : Option ProgressFields
  signals : List String
deriving Repr, DecidableEq

/-- The body of `performSave` as excerpted (part_000 lines 145-155): the
checksum of the NEW payload is computed and attached, the snapshot is
stored under a fresh id and `PROGRESS_HEAD` is overwritten.  The existing
head's checksum is never re-derived or compared, so no quarantine copy is
written and no corruption signal is emitted on this path. -/
def performSave (store : StoreState) (data : ProgressFields) : StoreState :=
  let cs := generateChecksum data
  let newId := store.snapshots.length + 1
  { store with
      head := some { checksum := cs, snapshotId := newId }
      snapshots := store.snapshots ++ [(newId, data)] }

/-- A store whose head references snapshot 1 with a stored checksum that
does not match the checksum re-derived from that snapshot: the persisted
data is corrupt in exactly the sense of the spec's pre-overwrite check. -/
def corruptStore : StoreState :=
  { head := some { checksum := 12345, snapshotId := 1 }
    snapshots := [(1, sampleProgressB)]
    quarantine := none
    signals := [] }

/-- State of the durable-adapter initialization logic of `ensureDB`
(part_000 lines 196-205): the cached handle `this.db`, the one-shot
initialization outcome `this.dbReady` (a settled promise), the console
warnings printed, and the signals emitted to the facade. -/
structure DBState where
  db : Option Nat
  dbReady : Except String Nat
  warnings : List String
  events : List String
deriving Repr

/-- The `ensureDB` body as excerpted: return the cached handle if present;
otherwise await `this.dbReady`; on failure print `console.warn` and set
`this.db = null`.  No event is emitted to the facade on either path. -/
def ensureDB (s : DBState) : DBState × Option Nat :=
  match s.db with
  | some d => (s, some d)
  | none =>
    match s.dbReady with
    | Except.ok d => ({ s with db := some d }, some d)
    | Except.error msg =>
      ({ s with db := none,
                warnings := s.warnings ++ ["IndexedDB no disponible: " ++ msg] },
        none)

/-- Session state after the platform denied the IndexedDB open request. -/
def deniedDBState : DBState :=
  { db := none, dbReady := Except.error "denied", warnings := [], events := [] }

/-- Modelled from the spec: the schema migrator of `progressService.js` is
not under src/ (the analysis document only records that automatic version
migration exists).  Per spec section 4.3 a persisted snapshot carries a
schema version tag and fields added by later schema versions, which earlier
transforms must fill with documented defaults. -/
structure StoredSnapshot where
  version : Nat
  totalPoints : Nat
  quizzesTaken : Nat
  streak : Option Nat
  totalXP : Option Nat
deriving Repr, DecidableEq

/-- Modelled from the spec: the current schema version of the store. -/
def CURRENT_SCHEMA_VERSION : Nat := 3

/-- Modelled from the spec: one version-specific transform `(vN) -> v(N+1)`,
total over any syntactically valid prior-version snapshot, filling missing
optional fields with defaults.  A snapshot at any other version is left
untouched (there is no transform for it). -/
def migrateStep (s : StoredSnapshot) : StoredSnapshot :=
  match s.version with
  | 1 => { s with version := 2, streak := some (s.streak.getD 0) }
  | 2 => { s with version := 3, totalXP := some (s.totalXP.getD 0) }
  | _ => s

/-- Modelled from the spec: apply the ordered chain of transforms until the
version equals the current schema version, in strictly ascending order with
no version skipped; the fuel bounds the chain by its full length. -/
def migrateLoop : Nat → StoredSnapshot → StoredSnapshot
  | 0, s => s
  | n + 1, s =>
    if s.version < CURRENT_SCHEMA_VERSION then migrateLoop n (migrateStep s) else s

/-- Modelled from the spec: `migrate(snapshot)` runs the transform chain;
`CURRENT_SCHEMA_VERSION` steps of fuel cover the whole chain. -/
def migrate (s : StoredSnapshot) : StoredSnapshot :=
  migrateLoop CURRENT_SCHEMA_VERSION s

/-- A sample snapshot already at the current schema version. -/
def currentSnapshot : StoredSnapshot :=
  { version := 3, totalPoints := 100, quizzesTaken := 1,
    streak := some 2, totalXP := some 50 }

/-- A quiz question as consumed by `ResultsScreen`: its id, the index of
the correct option (`respuestaCorrecta`), and the metadata tags. -/
structure Question where
  id : Nat
  respuestaCorrecta : Nat
  dominio : String
  nivel : String
deriving Repr, DecidableEq

/-- The `results.answers` object of `ResultsScreen`, a JavaScript object
keyed by question index, modelled as an association list with unique keys;
`answers[index]` is the lookup, returning `undefined` (`none`) when the
index carries no answer. -/
def answerAt (answers : List (Nat × Nat)) (i : Nat) : Option Nat :=
  (answers.find? (fun p => p.1 == i)).map Prod.snd

/-- The `correctAnswers` accumulator of the statistics loop
(`ResultsScreen.js` lines 178-186): for each question index, add one when
the answer is present and equals `respuestaCorrecta`. -/
def countCorrect (answers : List (Nat × Nat)) : Nat → List Question → Nat
  | _, [] => 0
  | i, q :: qs =>
    (match answerAt answers i with
      | some v => if v = q.respuestaCorrecta then 1 else 0
      | none => 0) + countCorrect answers (i + 1) qs

/-- The `incorrectAnswers` accumulator of the same loop: add one when the
answer is present and differs from `respuestaCorrecta`. -/
def countIncorrect (answers : List (Nat × Nat)) : Nat → List Question → Nat
  | _, [] => 0
  | i, q :: qs =>
    (match answerAt answers i with
      | some v => if v = q.respuestaCorrecta then 0 else 1
      | none => 0) + countIncorrect answers (i + 1) qs

/-- Count of indices in the questions range that carry an answer
(`answers[index] !== undefined`); proof-side abbreviation shared by the
statistics lemmas. -/
def countDefined (answers : List (Nat × Nat)) : Nat → List Question → Nat
  | _, [] => 0
  | i, _ :: qs =>
    (if (answerAt answers i).isSome then 1 else 0) + countDefined answers (i + 1) qs

/-- The statistics block of `ResultsScreen` (lines 172-189):
`totalQuestions = questions.length`,
`answeredQuestions = Object.keys(answers).length`, the correct/incorrect
loop, and `unanswered = totalQuestions - answeredQuestions`. -/
structure ResultsStats where
  totalQuestions : Nat
  answeredQuestions : Nat
  correctAnswers : Nat
  incorrectAnswers : Nat
  unanswered : Nat
deriving Repr, DecidableEq

/-- Computation of the statistics block from the results object. -/
def computeStats (questions : List Question) (answers : List (Nat × Nat)) :
    ResultsStats :=
  { totalQuestions := questions.length
    answeredQuestions := answers.length
    correctAnswers := countCorrect answers 0 questions
    incorrectAnswers := countIncorrect answers 0 questions
    unanswered := questions.length - answers.length }

/-- Concrete questions for the statistics witness: three questions whose
correct options are 1, 0 and 2. -/
def witnessQuestions : List Question :=
  [{ id := 10, respuestaCorrecta := 1, dominio := "modelado", nivel := "intermedio" },
   { id := 11, respuestaCorrecta := 0, dominio := "visualizacion", nivel := "principiante" },
   { id := 12, respuestaCorrecta := 2, dominio := "analisis", nivel := "avanzado" }]

/-- Concrete answers for the statistics witness: index 0 answered correctly,
index 2 answered incorrectly, index 1 unanswered. -/
def witnessAnswers : List (Nat × Nat) := [(0, 1), (2, 0)]

/-- The results object handed to `ResultsScreen`: the question list, the
answers object and the elapsed time. -/
structure QuizResults where
  questions : List Question
  answers : List (Nat × Nat)
  timeElapsed : Nat
deriving Repr, DecidableEq

/-- The quiz identifier built by the processing effect (`ResultsScreen.js`
line 41): the template string
first-question-id `_` timeElapsed `_` question-count, with the JavaScript
`undefined` interpolated when the question list is empty. -/
def quizIdString (r : QuizResults) : String :=
  (match r.questions.head? with
    | some q => toString q.id
    | none => "undefined") ++ "_" ++ toString r.timeElapsed ++ "_" ++
    toString r.questions.length

/-- Calls the processing effect issues into the progress context. -/
inductive SvcCall where
  | record (qid : Nat) (isCorrect : Bool)
  | saveAnswered (qid : Nat)
  | updateProgress
deriving Repr, DecidableEq

/-- The per-question loop of the processing effect (lines 65-95): for each
question index with a defined answer, one `recordQuestionAttempt` followed
by one `saveAnsweredQuestion`. -/
def perQuestionCalls (answers : List (Nat × Nat)) : Nat → List Question → List SvcCall
  | _, [] => []
  | i, q :: qs =>
    (match answerAt answers i with
      | some v =>
        [SvcCall.record q.id (v == q.respuestaCorrecta), SvcCall.saveAnswered q.id]
      | none => []) ++ perQuestionCalls answers (i + 1) qs

/-- One run of the processing effect (lines 38-147): when the results are
present, compute the quiz id; if `processedQuizId.current` already equals
it, return without doing anything; otherwise set the ref immediately, run
the per-question loop and the single `updateProgressAfterQuiz`.  Returns
the new value of the ref and the calls performed by this run. -/
def runResultsEffect (processed : Option String) (results : Option QuizResults) :
    Option String × List SvcCall :=
  match results with
  | none => (processed, [])
  | some r =>
    let qid := quizIdString r
    if processed = some qid then (processed, [])
    else
      (some qid,
        perQuestionCalls r.answers 0 r.questions ++ [SvcCall.updateProgress])

/-- Concrete results object for the process-once witness. -/
def witnessResults : QuizResults :=
  { questions := witnessQuestions, answers := witnessAnswers, timeElapsed := 120 }

/-- The `toggleQuestion` handler of `ResultsScreen` (lines 223-231): copy
the expanded set; delete the index if present, insert it otherwise. -/
def toggleQuestion (expandedQuestions : Finset Nat) (index : Nat) : Finset Nat :=
  if index ∈ expandedQuestions then expandedQuestions.erase index
  else insert index expandedQuestions

/-- C2: the dedup fingerprint of `generateDataHash` serializes
`Math.floor(Date.now() / 1000)`, so hashing one and the same snapshot in two
different wall-clock seconds yields two different fingerprints — both the
serialized strings and the resulting hashes differ — contradicting the
requirement that the fingerprint not depend on the capture instant. -/
theorem generateDataHash_depends_on_time :
    dataHashString sampleProgress 999 ≠ dataHashString sampleProgress 1000 ∧
    generateDataHash sampleProgress 999 ≠ generateDataHash sampleProgress 1000 := by
  constructor <;> decide

/-- C3: `generateDataHash` reads only `totalPoints`, `quizzesTaken` and the
length of `answeredQuestions` (plus the timestamp): snapshots that differ in
achievements, missions and question tracking but agree on those three fields
receive identical fingerprints at any common instant. -/
theorem generateDataHash_ignores_achievements :
    sampleProgress.achievements ≠ sampleProgressB.achievements ∧
    generateDataHash sampleProgress 0 = generateDataHash sampleProgressB 0 ∧
    sampleProgress.missions ≠ sampleProgressC.missions ∧
    sampleProgress.questionTracking ≠ sampleProgressC.questionTracking ∧
    generateDataHash sampleProgress 0 = generateDataHash sampleProgressC 0 := by
  refine ⟨by decide, rfl, by decide, by decide, rfl⟩

/-- C1: the coordinator admits a second `performSave` while the first one is
suspended awaiting backend I/O: in the concrete interleaving `raceTrace`
both callers pass the dedup-plus-throttle check and both bodies are in
flight at once — the instrumentation counter reaches 2, violating the
at-most-one-in-flight property. -/
theorem saveProgress_race_two_inflight :
    (saveProgressEnter (saveProgressEnter SvcState.init sampleProgress 3000).1
        sampleProgressB 6000).2 = SaveOutcome.started ∧
    raceTrace.inFlight = 2 ∧ raceTrace.maxInFlight = 2 := by
  refine ⟨by decide, by decide, by decide⟩

/-- C4: saving identical content twice in immediate succession is only
skipped when both calls fall in the same wall-clock second.  At t1 = 2500,
t2 = 2999 the second call is deduplicated (`skipped`, no new write queued);
but at t1 = 2999, t2 = 3000 — 1 ms later — the serialized timestamp second
changes, the hashes differ, and the second call is enqueued for a redundant
backend write instead of returning `skipped: true` with zero writes. -/
theorem saveProgress_dedup_broken_across_seconds :
    (saveSameTwice sampleProgress 2500 2999).2 = SaveOutcome.skipped ∧
    (saveSameTwice sampleProgress 2500 2999).1.saveQueue = [] ∧
    (saveSameTwice sampleProgress 2999 3000).2 = SaveOutcome.queued ∧
    (saveSameTwice sampleProgress 2999 3000).2 ≠ SaveOutcome.skipped ∧
    (saveSameTwice sampleProgress 2999 3000).1.saveQueue ≠ [] := by
  refine ⟨by decide, by decide, by decide, by decide, by decide⟩

/-- C5: `performSave` overwrites a corrupt head without quarantining it.
`corruptStore` is genuinely corrupt (its stored checksum differs from the
checksum re-derived from the referenced snapshot), yet after `performSave`
the quarantine key is still empty, no signal was emitted, and the old head
has been replaced — the corrupt snapshot was silently dropped, contradicting
the required archive-then-signal behavior. -/
theorem performSave_drops_corrupt_snapshot :
    corruptStore.head = some { checksum := 12345, snapshotId := 1 } ∧
    corruptStore.snapshots = [(1, sampleProgressB)] ∧
    12345 ≠ generateChecksum sampleProgressB ∧
    (performSave corruptStore sampleProgress).quarantine = none ∧
    (performSave corruptStore sampleProgress).signals = [] ∧
    (performSave corruptStore sampleProgress).head ≠ corruptStore.head := by
  refine ⟨by decide, by decide, by decide, by decide, by decide, by decide⟩

/-- C7: when durable-adapter initialization fails, `ensureDB` swallows the
failure: it returns no handle and falls back (callers proceed with
localStorage only), but the only trace is a console warning — the emitted
signal list stays empty, and it stays empty on every retry of the session,
so no degraded-mode signal ever reaches the facade. -/
theorem ensureDB_swallows_failure :
    (ensureDB deniedDBState).2 = none ∧
    (ensureDB deniedDBState).1.events = [] ∧
    (ensureDB (ensureDB deniedDBState).1).2 = none ∧
    (ensureDB (ensureDB deniedDBState).1).1.events = [] ∧
    (ensureDB deniedDBState).1.warnings ≠ [] := by
  refine ⟨by decide, by decide, by decide, by decide, by decide⟩

/-- C6: the migrator is idempotent — `migrate (migrate s) = migrate s` for
every snapshot, and on a snapshot already at the current schema version
`migrate` is a no-op. -/
theorem migrate_idempotent (s : StoredSnapshot) :
    migrate (migrate s) = migrate s ∧
    (s.version = CURRENT_SCHEMA_VERSION → migrate s = s) := by
  obtain ⟨v, tp, qt, st, xp⟩ := s
  match v with
  | 0 => exact ⟨rfl, by intro h; simp [CURRENT_SCHEMA_VERSION] at h⟩
  | 1 => exact ⟨rfl, by intro h; simp [CURRENT_SCHEMA_VERSION] at h⟩
  | 2 => exact ⟨rfl, by intro h; simp [CURRENT_SCHEMA_VERSION] at h⟩
  | 3 => exact ⟨rfl, fun _ => rfl⟩
  | n + 4 =>
    have hlt : ¬ (n + 4 < CURRENT_SCHEMA_VERSION) := by
      simp [CURRENT_SCHEMA_VERSION]
    refine ⟨?_, fun _ => ?_⟩ <;> simp [migrate, migrateLoop, hlt]

/-- Witness instantiating `migrate_idempotent` on a version-3 snapshot,
discharging the current-version hypothesis of its second conjunct. -/
theorem migrate_idempotent_witness :
    migrate (migrate currentSnapshot) = migrate currentSnapshot ∧
    migrate currentSnapshot = currentSnapshot :=
  ⟨(migrate_idempotent currentSnapshot).1,
    (migrate_idempotent currentSnapshot).2 rfl⟩

/-- Each loop iteration classifies a present answer as exactly one of
correct or incorrect, so the two accumulators sum to the number of
answered indices in range. -/
theorem countCorrect_add_countIncorrect (answers : List (Nat × Nat)) :
    ∀ (i : Nat) (qs : List Question),
      countCorrect answers i qs + countIncorrect answers i qs =
        countDefined answers i qs := by
  intro i qs
  induction qs generalizing i with
  | nil => rfl
  | cons q qs ih =>
    simp only [countCorrect, countIncorrect, countDefined]
    rcases h : answerAt answers i with _ | v
    · simpa using ih (i + 1)
    · by_cases hc : v = q.respuestaCorrecta <;>
        · simp [hc]
          have := ih (i + 1)
          omega

/-- The loop count of answered indices equals a `countP` over the index
range the loop visits. -/
theorem countDefined_eq_countP (answers : List (Nat × Nat)) :
    ∀ (i : Nat) (qs : List Question),
      countDefined answers i qs =
        (List.range' i qs.length).countP (fun j => (answerAt answers j).isSome) := by
  intro i qs
  induction qs generalizing i with
  | nil => rfl
  | cons q qs ih =>
    simp only [countDefined, List.length_cons, List.range'_succ, List.countP_cons]
    have := ih (i + 1)
    by_cases h : (answerAt answers i).isSome <;> simp [h] <;> omega

/-- Counting a disjunction of pointwise-exclusive predicates splits into
the sum of the two counts. -/
theorem countP_or_disjoint {α : Type} (p q : α → Bool) (l : List α)
    (h : ∀ a ∈ l, ¬(p a = true ∧ q a = true)) :
    l.countP (fun a => p a || q a) = l.countP p + l.countP q := by
  induction l with
  | nil => rfl
  | cons a l ih =>
    have ha := h a (by simp)
    have hrest : ∀ b ∈ l, ¬(p b = true ∧ q b = true) := by
      intro b hb
      exact h b (by simp [hb])
    simp only [List.countP_cons, ih hrest]
    by_cases hp : p a = true <;> by_cases hq : q a = true <;>
      simp [hp, hq] at ha ⊢ <;> omega

/-- A duplicate-free key list lying inside `range n` is counted by `range n`
exactly `keys.length` times. -/
theorem countP_range_mem (keys : List Nat) (n : Nat) (hnd : keys.Nodup)
    (hlt : ∀ k ∈ keys, k < n) :
    (List.range n).countP (fun j => keys.contains j) = keys.length := by
  induction keys with
  | nil => simp
  | cons k ks ih =>
    have hk : k ∉ ks := (List.nodup_cons.mp hnd).1
    have hnd' : ks.Nodup := (List.nodup_cons.mp hnd).2
    have hlt' : ∀ x ∈ ks, x < n := fun x hx => hlt x (by simp [hx])
    have hsplit :
        (List.range n).countP (fun j => (j == k) || ks.contains j) =
          (List.range n).countP (fun j => j == k) +
            (List.range n).countP (fun j => ks.contains j) := by
      refine countP_or_disjoint _ _ _ ?_
      intro a _ hand
      rcases hand with ⟨h1, h2⟩
      have : a = k := by simpa using h1
      subst this
      exact hk (by simpa using h2)
    have hcount : (List.range n).countP (fun j => j == k) = 1 := by
      have hmem : k ∈ List.range n := List.mem_range.mpr (hlt k (by simp))
      simpa [List.count] using List.count_eq_one_of_mem (List.nodup_range n) hmem
    have hcongr :
        (List.range n).countP (fun j => (k :: ks).contains j) =
          (List.range n).countP (fun j => (j == k) || ks.contains j) := by
      refine List.countP_congr ?_
      intro a _
      simp [List.contains, List.elem_cons]
    rw [hcongr, hsplit, hcount, ih hnd' hlt']
    simp [Nat.add_comm]

/-- An index carries an answer exactly when it occurs among the keys of the
answers object. -/
theorem isSome_answerAt (answers : List (Nat × Nat)) (j : Nat) :
    (answerAt answers j).isSome = true ↔
      (answers.map Prod.fst).contains j = true := by
  have hc : (answers.map Prod.fst).contains j = true ↔
      j ∈ answers.map Prod.fst := List.elem_iff
  rw [hc]
  simp only [answerAt, Option.isSome_map', List.find?_isSome, List.mem_map]
  constructor
  · rintro ⟨p, hp, hpj⟩
    exact ⟨p, hp, by simpa using hpj⟩
  · rintro ⟨p, hp, hpj⟩
    exact ⟨p, hp, by simp [hpj]⟩

/-- C8: the statistics of `ResultsScreen` partition the questions.  For any
results object whose answer keys are distinct question indices,
`correctAnswers + incorrectAnswers` equals `answeredQuestions`,
`unanswered` equals `totalQuestions - answeredQuestions`, and the three
counters together cover every question exactly once. -/
theorem resultsStats_partition (questions : List Question)
    (answers : List (Nat × Nat))
    (hnd : (answers.map Prod.fst).Nodup)
    (hlt : ∀ p ∈ answers, p.1 < questions.length) :
    (computeStats questions answers).correctAnswers +
        (computeStats questions answers).incorrectAnswers =
      (computeStats questions answers).answeredQuestions ∧
    (computeStats questions answers).unanswered =
      (computeStats questions answers).totalQuestions -
        (computeStats questions answers).answeredQuestions ∧
    (computeStats questions answers).correctAnswers +
        (computeStats questions answers).incorrectAnswers +
        (computeStats questions answers).unanswered =
      (computeStats questions answers).totalQuestions := by
  have hkeys : ∀ k ∈ answers.map Prod.fst, k < questions.length := by
    intro k hk
    rcases List.mem_map.mp hk with ⟨p, hp, hfst⟩
    exact hfst ▸ hlt p hp
  have hmain :
      countCorrect answers 0 questions + countIncorrect answers 0 questions =
        answers.length := by
    rw [countCorrect_add_countIncorrect, countDefined_eq_countP]
    have hrange : List.range' 0 questions.length = List.range questions.length :=
      (List.range_eq_range' questions.length).symm
    rw [hrange]
    have hcongr :
        (List.range questions.length).countP
            (fun j => (answerAt answers j).isSome) =
          (List.range questions.length).countP
            (fun j => (answers.map Prod.fst).contains j) :=
      List.countP_congr (fun j _ => isSome_answerAt answers j)
    rw [hcongr, countP_range_mem (answers.map Prod.fst) questions.length hnd hkeys]
    simp
  have hle : answers.length ≤ questions.length := by
    have := countP_range_mem (answers.map Prod.fst) questions.length hnd hkeys
    have hb := List.countP_le_length
      (l := List.range questions.length)
      (p := fun j => (answers.map Prod.fst).contains j)
    rw [this] at hb
    simpa using hb
  refine ⟨?_, rfl, ?_⟩ <;> simp only [computeStats] at * <;> omega

/-- Witness instantiating `resultsStats_partition` on a concrete results
object, discharging the distinct-keys and in-range hypotheses by `decide`. -/
theorem resultsStats_partition_witness :
    (computeStats witnessQuestions witnessAnswers).correctAnswers +
        (computeStats witnessQuestions witnessAnswers).incorrectAnswers =
      (computeStats witnessQuestions witnessAnswers).answeredQuestions ∧
    (computeStats witnessQuestions witnessAnswers).unanswered =
      (computeStats witnessQuestions witnessAnswers).totalQuestions -
        (computeStats witnessQuestions witnessAnswers).answeredQuestions ∧
    (computeStats witnessQuestions witnessAnswers).correctAnswers +
        (computeStats witnessQuestions witnessAnswers).incorrectAnswers +
        (computeStats witnessQuestions witnessAnswers).unanswered =
      (computeStats witnessQuestions witnessAnswers).totalQuestions :=
  resultsStats_partition witnessQuestions witnessAnswers (by decide) (by decide)

/-- C9: the processing effect runs at most once per quiz identifier.  After
any run of the effect on results `r`, the `processedQuizId` ref holds the
identifier of `r`, and every re-run on results carrying that same
identifier performs zero `recordQuestionAttempt`, `saveAnsweredQuestion`
and `updateProgressAfterQuiz` calls. -/
theorem resultsEffect_processes_once (p : Option String) (r r' : QuizResults)
    (hid : quizIdString r' = quizIdString r) :
    (runResultsEffect p (some r)).1 = some (quizIdString r) ∧
    runResultsEffect (runResultsEffect p (some r)).1 (some r') =
      ((runResultsEffect p (some r)).1, []) := by
  by_cases h : p = some (quizIdString r) <;>
    simp [runResultsEffect, h, hid]

/-- Witness instantiating `resultsEffect_processes_once` on a concrete
results object, re-running the effect on the identical identifier. -/
theorem resultsEffect_processes_once_witness :
    (runResultsEffect none (some witnessResults)).1 =
      some (quizIdString witnessResults) ∧
    runResultsEffect (runResultsEffect none (some witnessResults)).1
        (some witnessResults) =
      ((runResultsEffect none (some witnessResults)).1, []) :=
  resultsEffect_processes_once none witnessResults witnessResults rfl

/-- C10: `toggleQuestion` is an involution on the expanded-questions set:
one toggle flips exactly the toggled index (membership of every other index
is unchanged, the toggled index's membership is negated), and toggling the
same index twice restores the original set. -/
theorem toggleQuestion_involutive (E : Finset Nat) (i : Nat) :
    (i ∈ toggleQuestion E i ↔ i ∉ E) ∧
    (∀ j, j ≠ i → (j ∈ toggleQuestion E i ↔ j ∈ E)) ∧
    toggleQuestion (toggleQuestion E i) i = E := by
  by_cases h : i ∈ E
  · refine ⟨by simp [toggleQuestion, h], ?_, ?_⟩
    · intro j hj
      simp [toggleQuestion, h, Finset.mem_erase, hj]
    · simp [toggleQuestion, h, Finset.insert_erase]
  · refine ⟨by simp [toggleQuestion, h], ?_, ?_⟩
    · intro j hj
      simp [toggleQuestion, h, Finset.mem_insert, hj]
    · simp [toggleQuestion, h, Finset.erase_insert]

/-- Witness instantiating `toggleQuestion_involutive` on the concrete set
containing indices 0 and 2, toggling index 2 and probing index 3. -/
theorem toggleQuestion_involutive_witness :
    (2 ∈ toggleQuestion {0, 2} 2 ↔ 2 ∉ ({0, 2} : Finset Nat)) ∧
    (3 ∈ toggleQuestion {0, 2} 2 ↔ 3 ∈ ({0, 2} : Finset Nat)) ∧
    toggleQuestion (toggleQuestion {0, 2} 2) 2 = {0, 2} :=
  ⟨(toggleQuestion_involutive {0, 2} 2).1,
    (toggleQuestion_involutive {0, 2} 2).2.1 3 (by decide),
    (toggleQuestion_involutive {0, 2} 2).2.2⟩
